import Mathlib

/-!
Code Copilot front end: page window, submission and history state

A shallow embedding of the client components of the repository
(`Pagination.jsx`, `CodeGenerator.jsx`, `HistoryList.jsx`, `App.jsx`).

* JavaScript numbers that hold page numbers, counters and identifiers are
  integers here (`Int`, or `Nat` for counters and identifiers).
* React state is a record; a handler is a function from the state it closes
  over to the state after all of its `set…` calls, together with the calls
  it made to its collaborators.
* An awaited promise is the value it settles with (`resolved` / `rejected`).
-/

namespace CodeCopilot

/-! Pagination.jsx -/

namespace Pagination

/-- Line 5: `const maxPagesToShow = 5;` -/
def maxPagesToShow : Int := 5

/-- Line 8: `Math.max(1, currentPage - Math.floor(maxPagesToShow / 2))`. -/
def initialStartPage (currentPage : Int) : Int :=
  max 1 (currentPage - Int.fdiv maxPagesToShow 2)

/-- Line 9: `Math.min(totalPages, startPage + maxPagesToShow - 1)`. -/
def endPage (currentPage totalPages : Int) : Int :=
  min totalPages (initialStartPage currentPage + maxPagesToShow - 1)

/-- The value of `startPage` after the re-clamp of lines 11-13. -/
def startPage (currentPage totalPages : Int) : Int :=
  if endPage currentPage totalPages - initialStartPage currentPage < maxPagesToShow - 1 then
    max 1 (endPage currentPage totalPages - maxPagesToShow + 1)
  else
    initialStartPage currentPage

/-- The loop `for (let i = startPage; i <= endPage; i++) pages.push(i)`,
run for at most `fuel` iterations. The result is `none` when the fuel is
used up before the loop condition fails. -/
def pushLoop : Nat → Int → Int → List Int → Option (List Int)
  | 0, i, endPage, pages => if i ≤ endPage then none else some pages
  | fuel + 1, i, endPage, pages =>
      if i ≤ endPage then pushLoop fuel (i + 1) endPage (pages ++ [i]) else some pages

/-- The number of iterations that the loop of lines 15-17 needs. -/
def loopFuel (currentPage totalPages : Int) : Nat :=
  (endPage currentPage totalPages - startPage currentPage totalPages + 1).toNat

/-- The array `pages` of lines 4-17. -/
def pages (currentPage totalPages : Int) : List Int :=
  (pushLoop (loopFuel currentPage totalPages) (startPage currentPage totalPages)
    (endPage currentPage totalPages) []).getD []

/-- What one child of the page-number row is. -/
inductive Control where
  /-- A button with its label and the page its `onClick` passes to
  `onPageChange`. -/
  | button (label : Int) (target : Int)
  /-- A window button; `active` is `page === currentPage`. -/
  | pageButton (page : Int) (active : Bool)
  /-- The span holding three dots: `<span>...</span>`. -/
  | ellipsis
  deriving DecidableEq, Repr

/-- The Previous and Next buttons: the page passed to `onPageChange` and the
`disabled` attribute. -/
structure NavButton where
  target : Int
  disabled : Bool
  deriving DecidableEq, Repr

/-- The props of the component, `onPageChange` apart. -/
structure Props where
  currentPage : Int
  totalPages : Int
  hasNextPage : Bool
  hasPreviousPage : Bool
  deriving DecidableEq, Repr

/-- The rendered component, section by section in document order. -/
structure View where
  /-- Lines 23-34. -/
  previous : NavButton
  /-- Lines 38-50: the fragment guarded by `startPage > 1`. -/
  leading : List Control
  /-- Lines 52-64: one button per entry of `pages`. -/
  numbers : List Control
  /-- Lines 66-78: the fragment guarded by `endPage < totalPages`. -/
  trailing : List Control
  /-- Lines 82-93. -/
  next : NavButton
  deriving DecidableEq, Repr

/-- The fragment of lines 38-50. -/
def leadingControls (currentPage totalPages : Int) : List Control :=
  if startPage currentPage totalPages > 1 then
    Control.button 1 1 ::
      (if startPage currentPage totalPages > 2 then [Control.ellipsis] else [])
  else []

/-- The fragment of lines 66-78. -/
def trailingControls (currentPage totalPages : Int) : List Control :=
  if endPage currentPage totalPages < totalPages then
    (if endPage currentPage totalPages < totalPages - 1 then [Control.ellipsis] else []) ++
      [Control.button totalPages totalPages]
  else []

/-- The component `Pagination` (lines 3-102). -/
def render (p : Props) : View where
  previous := { target := p.currentPage - 1, disabled := !p.hasPreviousPage }
  leading := leadingControls p.currentPage p.totalPages
  numbers := (pages p.currentPage p.totalPages).map
    (fun page => Control.pageButton page (page == p.currentPage))
  trailing := trailingControls p.currentPage p.totalPages
  next := { target := p.currentPage + 1, disabled := !p.hasNextPage }

/-- The consecutive integers from `s` to `e`, both included; empty when
`e < s`. This is the window as the specification words it. -/
def consecutive (s e : Int) : List Int :=
  (List.range (e - s + 1).toNat).map (fun (k : Nat) => s + (k : Int))

/-- The window start as the specification words it:
`max(1, min(currentPage - 2, totalPages - 4))`. -/
def specStart (currentPage totalPages : Int) : Int :=
  max 1 (min (currentPage - 2) (totalPages - 4))

end Pagination

/-! JavaScript values read by the components -/

/-- The JavaScript values that the components read from a response or a
rejection and keep in their `error` state. An array holds strings, the
element type of the `errors` list of the API. -/
inductive JsValue where
  | undefined
  | null
  | bool (b : Bool)
  | number (n : Int)
  | string (s : String)
  | array (items : List String)
  deriving DecidableEq, Repr

namespace JsValue

/-- JavaScript truthiness (`ToBoolean`). -/
def truthy : JsValue → Bool
  | undefined => false
  | null => false
  | bool b => b
  | number n => n != 0
  | string s => s != ""
  | array _ => true

/-- The test `Array.isArray(v)`. -/
def isArray : JsValue → Bool
  | array _ => true
  | _ => false

/-- The expression `a || b`. -/
def or (a b : JsValue) : JsValue :=
  if a.truthy then a else b

/-- The call `v.join(separator)` for an array `v` of strings. On the other values,
which have no `join` method, the model yields `undefined`; the components
call it behind `Array.isArray` only. -/
def join (separator : String) : JsValue → JsValue
  | array items => string (separator.intercalate items)
  | _ => undefined

end JsValue

/-- The `WhiteSpace` and `LineTerminator` code points of ECMAScript, the ones
that `String.prototype.trim` removes. -/
def isTrimmable (c : Char) : Bool :=
  let n := c.toNat
  n == 0x09 || n == 0x0A || n == 0x0B || n == 0x0C || n == 0x0D || n == 0x20 ||
  n == 0xA0 || n == 0x1680 || (0x2000 ≤ n && n ≤ 0x200A) || n == 0x2028 ||
  n == 0x2029 || n == 0x202F || n == 0x205F || n == 0x3000 || n == 0xFEFF

/-- The call `s.trim()`. -/
def jsTrim (s : String) : String :=
  String.mk ((s.data.dropWhile isTrimmable).reverse.dropWhile isTrimmable).reverse

/-- The value of `s.length`: the number of UTF-16 code units of the string. -/
def jsLength (s : String) : Nat :=
  (s.data.map (fun c => if c.toNat < 0x10000 then 1 else 2)).sum

/-- A generation record as the API returns it. -/
structure Generation where
  id : Nat
  prompt : String
  language : String
  code : String
  createdAt : String
  deriving DecidableEq, Repr

/-- A rejection value other than `undefined` and `null`, seen through the two
properties the components read from it: `error` and `errors`, each
`undefined` when the value has no such property. A promise rejected with
`undefined` or `null` is a case of its own in the outcome types below, since
reading a property of it throws. -/
structure ApiError where
  error : JsValue
  errors : JsValue
  deriving DecidableEq, Repr

/-- The `TypeError` thrown when a property of `undefined` is read: it has
neither an `error` nor an `errors` property. -/
def typeError : ApiError := { error := JsValue.undefined, errors := JsValue.undefined }

/-! App.jsx -/

namespace App

/-- The state of `App` (lines 8-9). -/
structure State where
  activeTab : String
  refreshHistory : Nat
  deriving DecidableEq, Repr

/-- The initial state: `useState('generate')`, `useState(0)`. -/
def initialState : State := { activeTab := "generate", refreshHistory := 0 }

/-- The handler `handleGenerationSuccess` (lines 11-14):
`setRefreshHistory(prev => prev + 1)`. -/
def handleGenerationSuccess (s : State) : State :=
  { s with refreshHistory := s.refreshHistory + 1 }

end App

/-! CodeGenerator.jsx -/

namespace CodeGenerator

/-- An entry of the language list. -/
structure Language where
  id : Nat
  name : String
  extension : String
  deriving DecidableEq, Repr

/-- The state of the component (lines 7-12). -/
structure State where
  prompt : String
  language : String
  languages : List Language
  loading : Bool
  error : JsValue
  generatedCode : Option Generation
  deriving DecidableEq, Repr

/-- The initial state (lines 7-12). -/
def initialState : State :=
  { prompt := "", language := "", languages := [], loading := false,
    error := JsValue.null, generatedCode := none }

/-- The response object of `generateCode`; `data` is `none` when the
property is missing. -/
structure GenerateResponse where
  data : Option Generation
  deriving DecidableEq, Repr

/-- How the promise of `generateCode(prompt, language)` settles. A promise
resolved with `undefined` or `null` is `resolved none`; one rejected with
`undefined` or `null` is `rejectedNullish`. -/
inductive GenerateOutcome where
  | resolved (response : Option GenerateResponse)
  | rejected (err : ApiError)
  | rejectedNullish
  deriving DecidableEq, Repr

/-- The calls `handleSubmit` makes to its collaborators, in order. -/
inductive Call where
  | preventDefault
  | generateCode (prompt language : String)
  | onSuccess
  | consoleError (label : String)
  deriving DecidableEq, Repr

/-- The outcome of a handler: the component state, the state of the parent
that owns `onSuccess`, and the calls made. -/
structure Result (σ : Type) where
  state : State
  parent : σ
  calls : List Call

/-- The message of line 70. -/
def genericMessage : String := "Failed to generate code. Please try again."

/-- The value passed to `setError` in the `catch` block (lines 66-71). -/
def catchMessage (err : ApiError) : JsValue :=
  if err.errors.truthy && err.errors.isArray then
    err.errors.join ", "
  else
    err.error.or (JsValue.string genericMessage)

/-- The `catch` and `finally` blocks (lines 65-75) on the state `s` reached
inside `try`. -/
def catchFinally {σ : Type} (err : ApiError) (s : State) (parent : σ)
    (calls : List Call) : Result σ :=
  { state := { s with error := catchMessage err, loading := false }
    parent := parent
    calls := calls ++ [Call.consoleError "Generation error:"] }

/-- The `catch` and `finally` blocks (lines 65-75) when `err` is `undefined`
or `null`: reading `err.errors` in line 67 throws a `TypeError` inside
`catch`, so neither `setError` nor `console.error` runs; `finally` still
runs, and the `TypeError` leaves `handleSubmit` uncaught. -/
def uncaughtFinally {σ : Type} (s : State) (parent : σ) (calls : List Call) : Result σ :=
  { state := { s with loading := false }
    parent := parent
    calls := calls }

/-- The handler `handleSubmit` (lines 39-76), run to completion. `generateCode` gives
the settlement of the promise for the arguments of the call; `onSuccess`
is the prop, `none` when the parent passes none. -/
def handleSubmit {σ : Type} (generateCode : String → String → GenerateOutcome)
    (onSuccess : Option (σ → σ)) (s : State) (parent : σ) : Result σ :=
  if jsTrim s.prompt = "" then
    { state := { s with error := JsValue.string "Please enter a prompt" }
      parent := parent
      calls := [Call.preventDefault] }
  else if s.language = "" then
    { state := { s with error := JsValue.string "Please select a language" }
      parent := parent
      calls := [Call.preventDefault] }
  else
    let s1 : State := { s with loading := true, error := JsValue.null, generatedCode := none }
    let calls := [Call.preventDefault, Call.generateCode s.prompt s.language]
    match generateCode s.prompt s.language with
    | GenerateOutcome.resolved (some response) =>
        let s2 : State := { s1 with generatedCode := response.data }
        match onSuccess with
        | some callback =>
            { state := { s2 with loading := false }
              parent := callback parent
              calls := calls ++ [Call.onSuccess] }
        | none =>
            { state := { s2 with loading := false }
              parent := parent
              calls := calls }
    | GenerateOutcome.resolved none => catchFinally typeError s1 parent calls
    | GenerateOutcome.rejected err => catchFinally err s1 parent calls
    | GenerateOutcome.rejectedNullish => uncaughtFinally s1 parent calls

/-- The text of the counter under the prompt (line 104). -/
def lengthCounter (s : State) : String :=
  toString (jsLength s.prompt) ++ " / 5000 characters"

/-- Whether the error banner of lines 130-135 is rendered: `error && (…)`. -/
def errorBanner (s : State) : Bool :=
  s.error.truthy

/-- The response object of `getLanguages`. -/
structure LanguagesResponse where
  data : Option (List Language)
  deriving DecidableEq, Repr

/-- How the promise of `getLanguages()` settles; `rejectedNullish` is a
rejection with `undefined` or `null`. -/
inductive LanguagesOutcome where
  | resolved (response : Option LanguagesResponse)
  | rejected (err : ApiError)
  | rejectedNullish
  deriving DecidableEq, Repr

/-- The fallback list of lines 26-31. -/
def fallbackLanguages : List Language :=
  [ { id := 1, name := "Python", extension := ".py" },
    { id := 2, name := "JavaScript", extension := ".js" },
    { id := 3, name := "TypeScript", extension := ".ts" },
    { id := 4, name := "C++", extension := ".cpp" } ]

/-- The `catch` block of `fetchLanguages` (lines 23-33). -/
def languagesFallback (s : State) : State :=
  { s with languages := fallbackLanguages, language := "Python" }

/-- The function `fetchLanguages` (lines 16-34), run to completion. -/
def fetchLanguages (getLanguages : LanguagesOutcome) (s : State) : State :=
  match getLanguages with
  | LanguagesOutcome.resolved (some response) =>
      let s1 : State := { s with languages := response.data.getD [] }
      match response.data with
      | some (first :: _) => { s1 with language := first.name }
      | _ => s1
  | LanguagesOutcome.resolved none => languagesFallback s
  | LanguagesOutcome.rejected _ => languagesFallback s
  | LanguagesOutcome.rejectedNullish => languagesFallback s

/-- A prompt of 5001 characters, one more than the counter of line 104
names. -/
def longPrompt : String := String.mk (List.replicate 5001 'a')

/-- A state in which the user typed `longPrompt` and chose Python. -/
def longPromptState : State :=
  { initialState with prompt := longPrompt, language := "Python" }

/-- A state in which the user typed a short prompt and chose Python. -/
def sampleState : State :=
  { initialState with prompt := "reverse a list", language := "Python" }

/-- A generation as the API could return it for `sampleState`. -/
def sampleGeneration : Generation :=
  { id := 7, prompt := "reverse a list", language := "Python",
    code := "def rev(xs): return xs[::-1]", createdAt := "2024-01-01T00:00:00.000Z" }

end CodeGenerator

/-! HistoryList.jsx -/

namespace HistoryList

/-- The `pagination` object of the component state and of the API. The
initial state has no `hasNextPage` and `hasPreviousPage`; they are read for
their truthiness only, so the missing ones are `false`. -/
structure PaginationMeta where
  currentPage : Int
  totalPages : Int
  totalItems : Int
  itemsPerPage : Int
  hasNextPage : Bool
  hasPreviousPage : Bool
  deriving DecidableEq, Repr

/-- The state of the component (lines 8-17). -/
structure State where
  history : List Generation
  pagination : PaginationMeta
  loading : Bool
  error : JsValue
  expandedId : Option Nat
  deriving DecidableEq, Repr

/-- The initial state (lines 8-17). -/
def initialState : State :=
  { history := []
    pagination := { currentPage := 1, totalPages := 1, totalItems := 0, itemsPerPage := 10,
                    hasNextPage := false, hasPreviousPage := false }
    loading := true
    error := JsValue.null
    expandedId := none }

/-- The `data` object of the response of `getHistory`. -/
structure HistoryData where
  generations : Option (List Generation)
  pagination : PaginationMeta
  deriving DecidableEq, Repr

/-- The response object of `getHistory`. -/
structure HistoryResponse where
  data : Option HistoryData
  deriving DecidableEq, Repr

/-- How the promise of `getHistory(page, limit)` settles; `rejectedNullish`
is a rejection with `undefined` or `null`. -/
inductive HistoryOutcome where
  | resolved (response : Option HistoryResponse)
  | rejected (err : ApiError)
  | rejectedNullish
  deriving DecidableEq, Repr

/-- The calls the handlers make to their collaborators, in order. -/
inductive Call where
  | getHistory (page limit : Int)
  | consoleError (label : String)
  | scrollTo (top : Int)
  deriving DecidableEq, Repr

/-- The outcome of a handler: the component state and the calls made. -/
structure Result where
  state : State
  calls : List Call
  deriving DecidableEq, Repr

/-- The `catch` and `finally` blocks of `fetchHistory` (lines 27-32). -/
def catchFinally (err : ApiError) (s : State) (calls : List Call) : Result :=
  { state := { s with error := err.error.or (JsValue.string "Failed to load history"),
                      loading := false }
    calls := calls ++ [Call.consoleError "History fetch error:"] }

/-- The part of `fetchHistory` that runs before the `await` (lines 20-24):
the two `set…` calls and the call of `getHistory`; `page` is `none` when
the argument is left out, and the default `page = 1` applies. -/
def fetchHistoryStart (page : Option Int) (s : State) : Result :=
  { state := { s with loading := true, error := JsValue.null }
    calls := [Call.getHistory (page.getD 1) 10] }

/-- The part of `fetchHistory` that runs once the promise has settled
(lines 25-32), on the state and calls reached so far. When the promise
rejected with `undefined` or `null`, reading `err.error` in line 28 throws
inside `catch`: `setError` and `console.error` are skipped and `finally`
still runs. -/
def fetchHistorySettle (outcome : HistoryOutcome) (r : Result) : Result :=
  match outcome with
  | HistoryOutcome.resolved (some { data := some data }) =>
      { state := { r.state with history := data.generations.getD [],
                                pagination := data.pagination,
                                loading := false }
        calls := r.calls }
  | HistoryOutcome.resolved _ => catchFinally typeError r.state r.calls
  | HistoryOutcome.rejected err => catchFinally err r.state r.calls
  | HistoryOutcome.rejectedNullish =>
      { state := { r.state with loading := false }, calls := r.calls }

/-- The function `fetchHistory` (lines 19-33), run to completion. -/
def fetchHistory (getHistory : Int → Int → HistoryOutcome) (page : Option Int)
    (s : State) : Result :=
  fetchHistorySettle (getHistory (page.getD 1) 10) (fetchHistoryStart page s)

/-- The handler `handlePageChange` (lines 39-42). `fetchHistory(page)` is not
awaited: it runs up to its `await`, then `window.scrollTo` is called, and
the rest of `fetchHistory` runs when the promise has settled. -/
def handlePageChange (getHistory : Int → Int → HistoryOutcome) (page : Int)
    (s : State) : Result :=
  let started := fetchHistoryStart (some page) s
  fetchHistorySettle (getHistory page 10)
    { started with calls := started.calls ++ [Call.scrollTo 0] }

/-- The handler `toggleExpand` (lines 44-46):
`setExpandedId(expandedId === id ? null : id)`. -/
def toggleExpand (id : Nat) (s : State) : State :=
  { s with expandedId := if s.expandedId = some id then none else some id }

/-- The items whose expanded view is rendered (lines 140-151):
`expandedId === item.id`. -/
def expandedItems (s : State) : List Generation :=
  s.history.filter (fun item => s.expandedId == some item.id)

/-- The pages that `getHistory` was asked for, in call order. -/
def requestedPages : List Call → List (Int × Int)
  | [] => []
  | Call.getHistory page limit :: rest => (page, limit) :: requestedPages rest
  | _ :: rest => requestedPages rest

/-- The value `N` clamped to `[1, T]`. -/
def clamp (n t : Int) : Int :=
  max 1 (min n t)

/-- A state showing page 1 of 3. -/
def threePageState : State :=
  { initialState with
    pagination := { currentPage := 1, totalPages := 3, totalItems := 25, itemsPerPage := 10,
                    hasNextPage := true, hasPreviousPage := false }
    loading := false }

/-- A `getHistory` that answers every request with an empty page out of 3. -/
def emptyPageOfThree (page _limit : Int) : HistoryOutcome :=
  let pagination : PaginationMeta :=
    { currentPage := page, totalPages := 3, totalItems := 25, itemsPerPage := 10,
      hasNextPage := decide (page < 3), hasPreviousPage := decide (page > 1) }
  let data : HistoryData := { generations := some [], pagination := pagination }
  HistoryOutcome.resolved (some { data := some data })

/-- A state listing two generations, the first of them expanded. -/
def twoItemState : State :=
  { initialState with
    history := [ { id := 7, prompt := "a", language := "Python", code := "x", createdAt := "t1" },
                 { id := 5, prompt := "b", language := "C++", code := "y", createdAt := "t0" } ]
    loading := false
    expandedId := some 7 }

end HistoryList

/-! Pagination.jsx: what a click passes to `onPageChange` -/

namespace Pagination

/-- The page that the `onClick` of a child of the page-number row passes to
`onPageChange` (lines 41, 55, 72); the ellipsis span has no `onClick`. -/
def Control.onClick : Control → Option Int
  | Control.button _ target => some target
  | Control.pageButton page _ => some page
  | Control.ellipsis => none

/-- The page that a click on the Previous or Next button passes to
`onPageChange` (lines 24-25, 83-84); a `disabled` button fires no click. -/
def NavButton.onClick (b : NavButton) : Option Int :=
  if b.disabled then none else some b.target

/-- Every page number that a click on the rendered component can pass to
`onPageChange`, in document order. -/
def clickTargets (v : View) : List Int :=
  v.previous.onClick.toList ++
    (v.leading ++ v.numbers ++ v.trailing).filterMap Control.onClick ++
    v.next.onClick.toList

end Pagination

end CodeCopilot


/-! The page window -/

namespace CodeCopilot

namespace Pagination

theorem half_window : Int.fdiv maxPagesToShow 2 = 2 := by decide

theorem initialStartPage_eq (currentPage : Int) :
    initialStartPage currentPage = max 1 (currentPage - 2) := by
  simp [initialStartPage, half_window]

theorem endPage_eq (currentPage totalPages : Int) :
    endPage currentPage totalPages = min totalPages (max 1 (currentPage - 2) + 4) := by
  simp only [endPage, initialStartPage_eq, maxPagesToShow]
  omega

theorem startPage_eq (currentPage totalPages : Int) :
    startPage currentPage totalPages =
      if min totalPages (max 1 (currentPage - 2) + 4) - max 1 (currentPage - 2) < 4 then
        max 1 (min totalPages (max 1 (currentPage - 2) + 4) - 4)
      else max 1 (currentPage - 2) := by
  simp only [startPage, endPage_eq, initialStartPage_eq, maxPagesToShow]
  split <;> rename_i h
  · rw [if_pos (by omega)]; omega
  · rw [if_neg (by omega)]

theorem consecutive_of_lt {s e : Int} (h : e < s) : consecutive s e = [] := by
  have : (e - s + 1).toNat = 0 := by omega
  simp [consecutive, this]

theorem consecutive_of_le {s e : Int} (h : s ≤ e) :
    consecutive s e = s :: consecutive (s + 1) e := by
  have : (e - s + 1).toNat = (e - (s + 1) + 1).toNat + 1 := by omega
  simp only [consecutive, this, List.range_succ_eq_map, List.map_cons, List.map_map]
  congr 1
  · simp
  · apply List.map_congr_left
    intro k _
    simp only [Function.comp, Nat.succ_eq_add_one]
    push_cast
    ring

theorem mem_consecutive {s e x : Int} : x ∈ consecutive s e ↔ s ≤ x ∧ x ≤ e := by
  simp only [consecutive, List.mem_map, List.mem_range]
  constructor
  · rintro ⟨k, hk, rfl⟩
    omega
  · rintro ⟨h1, h2⟩
    exact ⟨(x - s).toNat, by omega, by omega⟩

theorem length_consecutive (s e : Int) : (consecutive s e).length = (e - s + 1).toNat := by
  simp [consecutive]

theorem pushLoop_eq (fuel : Nat) :
    ∀ (i e : Int) (acc : List Int), (e - i + 1).toNat ≤ fuel →
      pushLoop fuel i e acc = some (acc ++ consecutive i e) := by
  induction fuel with
  | zero =>
      intro i e acc h
      have hlt : e < i := by omega
      simp [pushLoop, consecutive_of_lt hlt, not_le.mpr hlt]
  | succ n ih =>
      intro i e acc h
      by_cases hle : i ≤ e
      · rw [pushLoop, if_pos hle, ih (i + 1) e (acc ++ [i]) (by omega), consecutive_of_le hle]
        simp
      · have hlt : e < i := by omega
        simp [pushLoop, consecutive_of_lt hlt, hle]

/-- The loop of lines 15-17 ends by its own condition, and `pages` is the run
of integers from `startPage` to `endPage`. -/
theorem pages_eq_consecutive (currentPage totalPages : Int) :
    pages currentPage totalPages =
      consecutive (startPage currentPage totalPages) (endPage currentPage totalPages) := by
  simp [pages, loopFuel, pushLoop_eq]

theorem mem_pages {currentPage totalPages x : Int} :
    x ∈ pages currentPage totalPages ↔
      startPage currentPage totalPages ≤ x ∧ x ≤ endPage currentPage totalPages := by
  rw [pages_eq_consecutive, mem_consecutive]

theorem chain_consecutive (n : Nat) :
    ∀ s : Int, List.Chain' (fun a b => b = a + 1)
      ((List.range n).map (fun (k : Nat) => s + (k : Int))) := by
  intro s
  rw [List.chain'_iff_get]
  intro i h
  simp only [List.length_map, List.length_range] at h
  simp only [List.get_eq_getElem, List.getElem_map, List.getElem_range]
  push_cast
  ring

theorem pairwise_consecutive (n : Nat) (s : Int) :
    List.Pairwise (fun a b => a < b) ((List.range n).map (fun (k : Nat) => s + (k : Int))) := by
  rw [List.pairwise_map]
  exact (List.pairwise_lt_range n).imp (fun h => by omega)

/-- An in-range current page lies between the bounds of the window. -/
theorem window_bounds_of_in_range {currentPage totalPages : Int}
    (h1 : 1 ≤ currentPage) (h2 : currentPage ≤ totalPages) :
    startPage currentPage totalPages ≤ currentPage ∧
      currentPage ≤ endPage currentPage totalPages := by
  rw [startPage_eq, endPage_eq]
  split <;> omega

/-- C1: when `1 ≤ currentPage ≤ totalPages`, the list `pages` computed by
`Pagination` contains `currentPage`. -/
theorem current_page_in_window (currentPage totalPages : Int)
    (h1 : 1 ≤ currentPage) (h2 : currentPage ≤ totalPages) :
    currentPage ∈ pages currentPage totalPages :=
  mem_pages.mpr (window_bounds_of_in_range h1 h2)

theorem current_page_in_window_witness :
    (1 : Int) ≤ 8 ∧ (8 : Int) ≤ 20 ∧ (8 : Int) ∈ pages 8 20 :=
  ⟨by decide, by decide, current_page_in_window 8 20 (by decide) (by decide)⟩

/-- C2: for all integers `currentPage` and `totalPages` (in particular for
`totalPages ≥ 0`), `pages` is the run of consecutive integers from `s` to
`min(totalPages, s + 4)` with `s = max(1, min(currentPage - 2, totalPages - 4))`;
`(8, 20)` gives `[6,7,8,9,10]`, `(1, 20)` gives `[1,2,3,4,5]` and `(20, 20)`
gives `[16,17,18,19,20]`. -/
theorem pages_eq_spec_window :
    (∀ currentPage totalPages : Int,
      pages currentPage totalPages =
        consecutive (specStart currentPage totalPages)
          (min totalPages (specStart currentPage totalPages + 4))) ∧
    pages 8 20 = [6, 7, 8, 9, 10] ∧
    pages 1 20 = [1, 2, 3, 4, 5] ∧
    pages 20 20 = [16, 17, 18, 19, 20] := by
  refine ⟨?_, by decide, by decide, by decide⟩
  intro currentPage totalPages
  rw [pages_eq_consecutive]
  have hs : startPage currentPage totalPages = specStart currentPage totalPages := by
    rw [startPage_eq, specStart]
    split <;> omega
  have he : endPage currentPage totalPages =
      min totalPages (specStart currentPage totalPages + 4) := by
    rw [endPage_eq, specStart]
    omega
  rw [hs, he]

/-- C3: for all integers `currentPage` (in or out of range) and
`totalPages ≥ 0`, `pages` is a strictly ascending run of consecutive
integers with exactly `min(5, totalPages)` entries, each of them in
`[1, totalPages]`; so it has at most 5 entries. -/
theorem pages_shape (currentPage totalPages : Int) (h : 0 ≤ totalPages) :
    List.Chain' (fun a b => b = a + 1) (pages currentPage totalPages) ∧
    List.Pairwise (fun a b => a < b) (pages currentPage totalPages) ∧
    ((pages currentPage totalPages).length : Int) = min 5 totalPages ∧
    (∀ x ∈ pages currentPage totalPages, 1 ≤ x ∧ x ≤ totalPages) ∧
    (pages currentPage totalPages).length ≤ 5 := by
  have hlen : ((pages currentPage totalPages).length : Int) = min 5 totalPages := by
    rw [pages_eq_consecutive, length_consecutive, startPage_eq, endPage_eq]
    split <;> omega
  refine ⟨?_, ?_, hlen, ?_, by omega⟩
  · rw [pages_eq_consecutive]
    exact chain_consecutive _ _
  · rw [pages_eq_consecutive]
    exact pairwise_consecutive _ _
  · intro x hx
    rw [mem_pages, startPage_eq, endPage_eq] at hx
    split at hx <;> omega

theorem pages_shape_witness :
    (0 : Int) ≤ 3 ∧
    List.Chain' (fun a b => b = a + 1) (pages 100 3) ∧
    List.Pairwise (fun a b => a < b) (pages 100 3) ∧
    ((pages 100 3).length : Int) = min 5 3 ∧
    (∀ x ∈ pages 100 3, 1 ≤ x ∧ x ≤ 3) ∧
    (pages 100 3).length ≤ 5 :=
  ⟨by decide, pages_shape 100 3 (by decide)⟩

/-- C4, as stated, fails: at `currentPage = 4`, `totalPages = 20` the window
is `[2,3,4,5,6]`, page 1 is not in it and the jump-to-first control is
rendered, but without a leading ellipsis; at `currentPage = 17` the window
is `[15,…,19]`, page 20 is not in it and the jump-to-last control is
rendered without a trailing ellipsis. -/
theorem jump_control_without_ellipsis :
    ((1 : Int) ≤ 4 ∧ (4 : Int) ≤ 20 ∧ 1 ∉ pages 4 20 ∧
      ¬ (Control.button 1 1 ∈ (render ⟨4, 20, true, true⟩).leading ∧
          Control.ellipsis ∈ (render ⟨4, 20, true, true⟩).leading)) ∧
    ((1 : Int) ≤ 17 ∧ (17 : Int) ≤ 20 ∧ 20 ∉ pages 17 20 ∧
      ¬ (Control.button 20 20 ∈ (render ⟨17, 20, true, true⟩).trailing ∧
          Control.ellipsis ∈ (render ⟨17, 20, true, true⟩).trailing)) := by
  decide

/-- C4, amended: when `1 ≤ currentPage ≤ totalPages`, the jump-to-first
control is rendered exactly when the window does not contain page 1, and the
leading ellipsis exactly when the window contains neither page 1 nor page 2;
the jump-to-last control is rendered exactly when the window does not
contain `totalPages`, and the trailing ellipsis exactly when the window
contains neither `totalPages` nor `totalPages - 1`. -/
theorem jump_controls_and_ellipses (p : Props)
    (h1 : 1 ≤ p.currentPage) (h2 : p.currentPage ≤ p.totalPages) :
    (Control.button 1 1 ∈ (render p).leading ↔ 1 ∉ pages p.currentPage p.totalPages) ∧
    (Control.ellipsis ∈ (render p).leading ↔
      1 ∉ pages p.currentPage p.totalPages ∧ 2 ∉ pages p.currentPage p.totalPages) ∧
    (Control.button p.totalPages p.totalPages ∈ (render p).trailing ↔
      p.totalPages ∉ pages p.currentPage p.totalPages) ∧
    (Control.ellipsis ∈ (render p).trailing ↔
      p.totalPages ∉ pages p.currentPage p.totalPages ∧
        p.totalPages - 1 ∉ pages p.currentPage p.totalPages) := by
  obtain ⟨cp, tp, hn, hp⟩ := p
  simp only at h1 h2
  simp only [render, leadingControls, trailingControls, mem_pages]
  have hcur := window_bounds_of_in_range h1 h2
  have hs : 1 ≤ startPage cp tp := by
    rw [startPage_eq]; split <;> omega
  have he : endPage cp tp ≤ tp := by
    rw [endPage_eq]; omega
  refine ⟨?_, ?_, ?_, ?_⟩
  · by_cases c1 : startPage cp tp > 1
    · rw [if_pos c1]; simp; omega
    · rw [if_neg c1]; simp; omega
  · by_cases c1 : startPage cp tp > 1
    · rw [if_pos c1]
      by_cases c2 : startPage cp tp > 2
      · rw [if_pos c2]; simp; omega
      · rw [if_neg c2]; simp; omega
    · rw [if_neg c1]; simp; omega
  · by_cases c1 : endPage cp tp < tp
    · rw [if_pos c1]; simp; omega
    · rw [if_neg c1]; simp; omega
  · by_cases c1 : endPage cp tp < tp
    · rw [if_pos c1]
      by_cases c2 : endPage cp tp < tp - 1
      · rw [if_pos c2]; simp; omega
      · rw [if_neg c2]; simp; omega
    · rw [if_neg c1]; simp; omega

theorem jump_controls_and_ellipses_witness :
    (Control.button 1 1 ∈ (render ⟨4, 20, true, true⟩).leading ↔ 1 ∉ pages 4 20) ∧
    (Control.ellipsis ∈ (render ⟨4, 20, true, true⟩).leading ↔
      1 ∉ pages 4 20 ∧ 2 ∉ pages 4 20) ∧
    (Control.button 20 20 ∈ (render ⟨4, 20, true, true⟩).trailing ↔ 20 ∉ pages 4 20) ∧
    (Control.ellipsis ∈ (render ⟨4, 20, true, true⟩).trailing ↔
      20 ∉ pages 4 20 ∧ 20 - 1 ∉ pages 4 20) :=
  jump_controls_and_ellipses ⟨4, 20, true, true⟩ (by decide) (by decide)

end Pagination

end CodeCopilot

/-! Submitting a prompt -/

namespace CodeCopilot

/-- A string whose first character is not white space is not blank. -/
theorem jsTrim_ne_empty_of_head {c : Char} (rest : List Char) (h : isTrimmable c = false) :
    jsTrim (String.mk (c :: rest)) ≠ "" := by
  intro hEq
  have hdata := congrArg String.data hEq
  simp only [jsTrim, List.dropWhile_cons, h, List.reverse_cons] at hdata
  simp at hdata
  have hc := hdata c (Or.inr rfl)
  simp [h] at hc

theorem jsLength_replicate_a (n : Nat) : jsLength (String.mk (List.replicate n 'a')) = n := by
  have h : (if 'a'.toNat < 0x10000 then 1 else 2) = 1 := by decide
  simp only [jsLength, List.map_replicate, List.sum_replicate, h]
  simp

namespace CodeGenerator

theorem jsLength_longPrompt : jsLength longPrompt = 5001 :=
  jsLength_replicate_a 5001

theorem jsTrim_longPrompt : jsTrim longPrompt ≠ "" :=
  jsTrim_ne_empty_of_head (List.replicate 5000 'a') (by decide)

/-- The path of `handleSubmit` past the validation block. -/
theorem handleSubmit_of_valid {σ : Type} (generateCode : String → String → GenerateOutcome)
    (onSuccess : Option (σ → σ)) (s : State) (parent : σ)
    (hp : jsTrim s.prompt ≠ "") (hl : s.language ≠ "") :
    handleSubmit generateCode onSuccess s parent =
      match generateCode s.prompt s.language with
      | GenerateOutcome.resolved (some response) =>
          match onSuccess with
          | some callback =>
              { state := { s with error := JsValue.null, generatedCode := response.data,
                                  loading := false }
                parent := callback parent
                calls := [Call.preventDefault, Call.generateCode s.prompt s.language,
                          Call.onSuccess] }
          | none =>
              { state := { s with error := JsValue.null, generatedCode := response.data,
                                  loading := false }
                parent := parent
                calls := [Call.preventDefault, Call.generateCode s.prompt s.language] }
      | GenerateOutcome.resolved none =>
          { state := { s with error := catchMessage typeError, generatedCode := none,
                              loading := false }
            parent := parent
            calls := [Call.preventDefault, Call.generateCode s.prompt s.language,
                      Call.consoleError "Generation error:"] }
      | GenerateOutcome.rejected err =>
          { state := { s with error := catchMessage err, generatedCode := none,
                              loading := false }
            parent := parent
            calls := [Call.preventDefault, Call.generateCode s.prompt s.language,
                      Call.consoleError "Generation error:"] }
      | GenerateOutcome.rejectedNullish =>
          { state := { s with error := JsValue.null, generatedCode := none,
                              loading := false }
            parent := parent
            calls := [Call.preventDefault, Call.generateCode s.prompt s.language] } := by
  simp only [handleSubmit, if_neg hp, if_neg hl, catchFinally, uncaughtFinally]
  cases generateCode s.prompt s.language with
  | resolved response =>
      cases response with
      | none => rfl
      | some response => cases onSuccess <;> rfl
  | rejected err => rfl
  | rejectedNullish => rfl

/-- The path of `handleSubmit` that stops in the validation block. -/
theorem handleSubmit_of_invalid {σ : Type} (generateCode : String → String → GenerateOutcome)
    (onSuccess : Option (σ → σ)) (s : State) (parent : σ)
    (h : jsTrim s.prompt = "" ∨ s.language = "") :
    (handleSubmit generateCode onSuccess s parent).calls = [Call.preventDefault] ∧
    (handleSubmit generateCode onSuccess s parent).parent = parent ∧
    (handleSubmit generateCode onSuccess s parent).state.loading = s.loading ∧
    (handleSubmit generateCode onSuccess s parent).state.generatedCode = s.generatedCode := by
  by_cases hp : jsTrim s.prompt = ""
  · simp [handleSubmit, hp]
  · have hl : s.language = "" := h.resolve_left hp
    simp [handleSubmit, hp, hl]

/-- C5: for every prompt that is empty after trimming, and every language,
`handleSubmit` sets the error to 'Please enter a prompt', calls neither
`generateCode` nor `onSuccess`, and changes no field of the state other
than `error` (so `loading` and `generatedCode` are as before). -/
theorem blank_prompt_rejected {σ : Type} (generateCode : String → String → GenerateOutcome)
    (onSuccess : Option (σ → σ)) (s : State) (parent : σ) (h : jsTrim s.prompt = "") :
    (handleSubmit generateCode onSuccess s parent).state =
      { s with error := JsValue.string "Please enter a prompt" } ∧
    (∀ prompt language,
      Call.generateCode prompt language ∉ (handleSubmit generateCode onSuccess s parent).calls) ∧
    Call.onSuccess ∉ (handleSubmit generateCode onSuccess s parent).calls ∧
    (handleSubmit generateCode onSuccess s parent).parent = parent ∧
    (handleSubmit generateCode onSuccess s parent).state.loading = s.loading ∧
    (handleSubmit generateCode onSuccess s parent).state.generatedCode = s.generatedCode := by
  simp [handleSubmit, h]

theorem blank_prompt_rejected_witness :
    (handleSubmit (fun _ _ => GenerateOutcome.resolved (some ⟨some sampleGeneration⟩))
        (some App.handleGenerationSuccess)
        { sampleState with prompt := " \n\t " } App.initialState).state =
      { sampleState with prompt := " \n\t ",
                         error := JsValue.string "Please enter a prompt" } :=
  (blank_prompt_rejected (fun _ _ => GenerateOutcome.resolved (some ⟨some sampleGeneration⟩))
    (some App.handleGenerationSuccess) { sampleState with prompt := " \n\t " }
    App.initialState (by decide)).1

/-- C6, as stated, fails: a prompt of 5001 characters, submitted with the
language Python, reaches `generateCode`; when that call resolves, no error
is set at all. -/
theorem long_prompt_reaches_generateCode :
    5000 < jsLength longPromptState.prompt ∧
    Call.generateCode longPrompt "Python" ∈
      (handleSubmit (fun _ _ => GenerateOutcome.resolved (some ⟨some sampleGeneration⟩))
        (some App.handleGenerationSuccess) longPromptState App.initialState).calls ∧
    (handleSubmit (fun _ _ => GenerateOutcome.resolved (some ⟨some sampleGeneration⟩))
        (some App.handleGenerationSuccess) longPromptState App.initialState).state.error =
      JsValue.null := by
  have hp : jsTrim longPromptState.prompt ≠ "" := jsTrim_longPrompt
  have hl : longPromptState.language ≠ "" := by decide
  refine ⟨?_, ?_, ?_⟩
  · show 5000 < jsLength longPrompt
    rw [jsLength_longPrompt]
    decide
  · rw [handleSubmit_of_valid _ _ _ _ hp hl]
    simp [longPromptState]
  · rw [handleSubmit_of_valid _ _ _ _ hp hl]

/-- C6, amended: `handleSubmit` has no length check. For every prompt
longer than 5000 characters that is not blank after trimming, submitted
with a non-empty language, `generateCode` is invoked exactly once, with the
prompt as typed; the error is `null` when the call resolves with a response
object, is the message taken from the rejection value when it rejects with
a value other than `undefined` and `null`, and is `null` when it rejects
with `undefined` or `null`. -/
theorem long_prompt_submitted {σ : Type} (generateCode : String → String → GenerateOutcome)
    (onSuccess : Option (σ → σ)) (s : State) (parent : σ)
    (_hlen : 5000 < jsLength s.prompt) (hp : jsTrim s.prompt ≠ "") (hl : s.language ≠ "") :
    (handleSubmit generateCode onSuccess s parent).calls.count
        (Call.generateCode s.prompt s.language) = 1 ∧
    (∀ prompt language,
      Call.generateCode prompt language ∈ (handleSubmit generateCode onSuccess s parent).calls →
        prompt = s.prompt ∧ language = s.language) ∧
    (∀ response, generateCode s.prompt s.language = GenerateOutcome.resolved (some response) →
      (handleSubmit generateCode onSuccess s parent).state.error = JsValue.null) ∧
    (∀ err, generateCode s.prompt s.language = GenerateOutcome.rejected err →
      (handleSubmit generateCode onSuccess s parent).state.error = catchMessage err) ∧
    (generateCode s.prompt s.language = GenerateOutcome.rejectedNullish →
      (handleSubmit generateCode onSuccess s parent).state.error = JsValue.null) := by
  rw [handleSubmit_of_valid _ _ _ _ hp hl]
  refine ⟨?_, ?_, ?_, ?_, ?_⟩
  · cases generateCode s.prompt s.language with
    | resolved response =>
        cases response with
        | none => simp [List.count_cons]
        | some response => cases onSuccess <;> simp [List.count_cons]
    | rejected err => simp [List.count_cons]
    | rejectedNullish => simp [List.count_cons]
  · intro prompt language
    cases generateCode s.prompt s.language with
    | resolved response =>
        cases response with
        | none => simp
        | some response => cases onSuccess <;> simp
    | rejected err => simp
    | rejectedNullish => simp
  · intro response hr
    rw [hr]
    cases onSuccess <;> rfl
  · intro err hr
    rw [hr]
  · intro hr
    rw [hr]

theorem long_prompt_submitted_witness :
    (handleSubmit (fun _ _ => GenerateOutcome.rejected ⟨JsValue.string "Prompt too long", JsValue.undefined⟩)
        (some App.handleGenerationSuccess) longPromptState App.initialState).calls.count
      (Call.generateCode longPrompt "Python") = 1 :=
  (long_prompt_submitted
    (fun _ _ => GenerateOutcome.rejected ⟨JsValue.string "Prompt too long", JsValue.undefined⟩)
    (some App.handleGenerationSuccess) longPromptState App.initialState
    (by show 5000 < jsLength longPrompt; rw [jsLength_longPrompt]; decide)
    jsTrim_longPrompt (by decide)).1

/-- C7: with `onSuccess = App.handleGenerationSuccess`, `handleSubmit` calls
`onSuccess` exactly once (the refresh counter of `App` goes up by exactly
one) when `generateCode` resolves with a response object, and not at all
when validation fails or `generateCode` rejects, with any value, `undefined`
and `null` included (the counter is unchanged); whenever `generateCode` was
called, `loading` is `false` at the end. -/
theorem onSuccess_exactly_on_success (generateCode : String → String → GenerateOutcome)
    (s : State) (app : App.State) :
    (jsTrim s.prompt ≠ "" → s.language ≠ "" →
      ∀ response, generateCode s.prompt s.language = GenerateOutcome.resolved (some response) →
        (handleSubmit generateCode (some App.handleGenerationSuccess) s app).calls.count
            Call.onSuccess = 1 ∧
        (handleSubmit generateCode (some App.handleGenerationSuccess) s app).parent =
            App.handleGenerationSuccess app ∧
        (handleSubmit generateCode (some App.handleGenerationSuccess) s app).parent.refreshHistory =
            app.refreshHistory + 1) ∧
    ((jsTrim s.prompt = "" ∨ s.language = "" ∨
        (∃ err, generateCode s.prompt s.language = GenerateOutcome.rejected err) ∨
        generateCode s.prompt s.language = GenerateOutcome.rejectedNullish) →
      (handleSubmit generateCode (some App.handleGenerationSuccess) s app).calls.count
          Call.onSuccess = 0 ∧
      (handleSubmit generateCode (some App.handleGenerationSuccess) s app).parent = app) ∧
    ((∃ prompt language, Call.generateCode prompt language ∈
        (handleSubmit generateCode (some App.handleGenerationSuccess) s app).calls) →
      (handleSubmit generateCode (some App.handleGenerationSuccess) s app).state.loading =
        false) := by
  refine ⟨?_, ?_, ?_⟩
  · intro hp hl response hr
    rw [handleSubmit_of_valid _ _ _ _ hp hl, hr]
    simp [List.count_cons, App.handleGenerationSuccess]
  · intro h
    by_cases hv : jsTrim s.prompt = "" ∨ s.language = ""
    · obtain ⟨hc, hpar, _, _⟩ := handleSubmit_of_invalid generateCode
        (some App.handleGenerationSuccess) s app hv
      rw [hc, hpar]
      simp [List.count_cons]
    · have hp : jsTrim s.prompt ≠ "" := fun e => hv (Or.inl e)
      have hl : s.language ≠ "" := fun e => hv (Or.inr e)
      rw [handleSubmit_of_valid _ _ _ _ hp hl]
      rcases h with h | h | ⟨err, hr⟩ | hr
      · exact absurd h hp
      · exact absurd h hl
      · rw [hr]
        simp [List.count_cons]
      · rw [hr]
        simp [List.count_cons]
  · rintro ⟨prompt, language, hmem⟩
    by_cases hv : jsTrim s.prompt = "" ∨ s.language = ""
    · rw [(handleSubmit_of_invalid generateCode (some App.handleGenerationSuccess) s app hv).1]
        at hmem
      simp at hmem
    · have hp : jsTrim s.prompt ≠ "" := fun e => hv (Or.inl e)
      have hl : s.language ≠ "" := fun e => hv (Or.inr e)
      rw [handleSubmit_of_valid _ _ _ _ hp hl]
      cases generateCode s.prompt s.language with
      | resolved response =>
          cases response with
          | none => rfl
          | some response => rfl
      | rejected err => rfl
      | rejectedNullish => rfl

theorem onSuccess_exactly_on_success_witness :
    ((handleSubmit (fun _ _ => GenerateOutcome.resolved (some ⟨some sampleGeneration⟩))
        (some App.handleGenerationSuccess) sampleState App.initialState).calls.count
          Call.onSuccess = 1 ∧
      (handleSubmit (fun _ _ => GenerateOutcome.resolved (some ⟨some sampleGeneration⟩))
        (some App.handleGenerationSuccess) sampleState App.initialState).parent =
          App.handleGenerationSuccess App.initialState ∧
      (handleSubmit (fun _ _ => GenerateOutcome.resolved (some ⟨some sampleGeneration⟩))
        (some App.handleGenerationSuccess) sampleState App.initialState).parent.refreshHistory =
          App.initialState.refreshHistory + 1) ∧
    ((handleSubmit (fun _ _ => GenerateOutcome.rejected typeError)
        (some App.handleGenerationSuccess) sampleState App.initialState).calls.count
          Call.onSuccess = 0 ∧
      (handleSubmit (fun _ _ => GenerateOutcome.rejected typeError)
        (some App.handleGenerationSuccess) sampleState App.initialState).parent =
          App.initialState) ∧
    (handleSubmit (fun _ _ => GenerateOutcome.rejected typeError)
        (some App.handleGenerationSuccess) sampleState App.initialState).state.loading =
      false :=
  ⟨(onSuccess_exactly_on_success
      (fun _ _ => GenerateOutcome.resolved (some ⟨some sampleGeneration⟩))
      sampleState App.initialState).1 (by decide) (by decide) ⟨some sampleGeneration⟩ rfl,
   (onSuccess_exactly_on_success (fun _ _ => GenerateOutcome.rejected typeError)
      sampleState App.initialState).2.1 (Or.inr (Or.inr (Or.inl ⟨typeError, rfl⟩))),
   (onSuccess_exactly_on_success (fun _ _ => GenerateOutcome.rejected typeError)
      sampleState App.initialState).2.2
      ⟨"reverse a list", "Python", by decide⟩⟩

/-- C8, as stated, fails twice. When the rejection value has an `error`
property holding the empty string (and no `errors`), the message set is the
generic one, not `err.error`. When the rejection value is `undefined` or
`null`, no message is set at all: the error is `null`, which is none of the
three messages, and `console.error` is not reached. -/
theorem empty_error_gets_generic_message :
    (ApiError.mk (JsValue.string "") JsValue.undefined).errors.isArray = false ∧
    (ApiError.mk (JsValue.string "") JsValue.undefined).error ≠ JsValue.undefined ∧
    (handleSubmit
        (fun _ _ => GenerateOutcome.rejected (ApiError.mk (JsValue.string "") JsValue.undefined))
        (some App.handleGenerationSuccess) sampleState App.initialState).state.error =
      JsValue.string genericMessage ∧
    JsValue.string genericMessage ≠ (ApiError.mk (JsValue.string "") JsValue.undefined).error ∧
    (handleSubmit (fun _ _ => GenerateOutcome.rejectedNullish)
        (some App.handleGenerationSuccess) sampleState App.initialState).state.error =
      JsValue.null ∧
    (handleSubmit (fun _ _ => GenerateOutcome.rejectedNullish)
        (some App.handleGenerationSuccess) sampleState App.initialState).calls =
      [Call.preventDefault, Call.generateCode "reverse a list" "Python"] ∧
    JsValue.null ≠ JsValue.string genericMessage := by
  decide

/-- C8, amended: for every rejection value `err` of `generateCode` other
than `undefined` and `null`, the error `handleSubmit` sets is exactly one of
three things: the entries of `err.errors` joined with ', ' when `err.errors`
is a list (whatever `err.error` is); otherwise `err.error` when it is truthy
(present and not the empty string); otherwise the generic message
'Failed to generate code. Please try again.'. When `err` is `undefined` or
`null`, no message is set: reading `err.errors` throws inside the `catch`
block and the error stays `null`. -/
theorem rejection_message_cases {σ : Type} (generateCode : String → String → GenerateOutcome)
    (onSuccess : Option (σ → σ)) (s : State) (parent : σ)
    (hp : jsTrim s.prompt ≠ "") (hl : s.language ≠ "") :
    (∀ err, generateCode s.prompt s.language = GenerateOutcome.rejected err →
      (∀ items, err.errors = JsValue.array items →
        (handleSubmit generateCode onSuccess s parent).state.error =
          JsValue.string (", ".intercalate items)) ∧
      (err.errors.isArray = false → err.error.truthy = true →
        (handleSubmit generateCode onSuccess s parent).state.error = err.error) ∧
      (err.errors.isArray = false → err.error.truthy = false →
        (handleSubmit generateCode onSuccess s parent).state.error =
          JsValue.string "Failed to generate code. Please try again.")) ∧
    (generateCode s.prompt s.language = GenerateOutcome.rejectedNullish →
      (handleSubmit generateCode onSuccess s parent).state.error = JsValue.null ∧
      (handleSubmit generateCode onSuccess s parent).calls =
        [Call.preventDefault, Call.generateCode s.prompt s.language]) := by
  rw [handleSubmit_of_valid _ _ _ _ hp hl]
  refine ⟨?_, ?_⟩
  · intro err hr
    rw [hr]
    refine ⟨?_, ?_, ?_⟩
    · intro items hi
      simp [catchMessage, hi, JsValue.truthy, JsValue.isArray, JsValue.join]
    · intro ha ht
      simp [catchMessage, ha, ht, JsValue.or]
    · intro ha ht
      simp [catchMessage, ha, ht, JsValue.or, genericMessage]
  · intro hr
    rw [hr]
    exact ⟨rfl, rfl⟩

theorem rejection_message_cases_witness :
    (handleSubmit
        (fun _ _ => GenerateOutcome.rejected
          (ApiError.mk (JsValue.string "ignored") (JsValue.array ["too short", "bad language"])))
        (some App.handleGenerationSuccess) sampleState App.initialState).state.error =
      JsValue.string "too short, bad language" ∧
    (handleSubmit
        (fun _ _ => GenerateOutcome.rejected
          (ApiError.mk (JsValue.string "quota exceeded") JsValue.undefined))
        (some App.handleGenerationSuccess) sampleState App.initialState).state.error =
      JsValue.string "quota exceeded" ∧
    (handleSubmit (fun _ _ => GenerateOutcome.rejected typeError)
        (some App.handleGenerationSuccess) sampleState App.initialState).state.error =
      JsValue.string "Failed to generate code. Please try again." ∧
    (handleSubmit (fun _ _ => GenerateOutcome.rejectedNullish)
        (some App.handleGenerationSuccess) sampleState App.initialState).state.error =
      JsValue.null :=
  ⟨((rejection_message_cases
      (fun _ _ => GenerateOutcome.rejected
        (ApiError.mk (JsValue.string "ignored") (JsValue.array ["too short", "bad language"])))
      (some App.handleGenerationSuccess) sampleState App.initialState
      (by decide) (by decide)).1
      (ApiError.mk (JsValue.string "ignored") (JsValue.array ["too short", "bad language"]))
      rfl).1 ["too short", "bad language"] rfl,
   ((rejection_message_cases
      (fun _ _ => GenerateOutcome.rejected
        (ApiError.mk (JsValue.string "quota exceeded") JsValue.undefined))
      (some App.handleGenerationSuccess) sampleState App.initialState
      (by decide) (by decide)).1
      (ApiError.mk (JsValue.string "quota exceeded") JsValue.undefined) rfl).2.1
      (by decide) (by decide),
   ((rejection_message_cases (fun _ _ => GenerateOutcome.rejected typeError)
      (some App.handleGenerationSuccess) sampleState App.initialState
      (by decide) (by decide)).1 typeError rfl).2.2 (by decide) (by decide),
   ((rejection_message_cases (fun _ _ => GenerateOutcome.rejectedNullish)
      (some App.handleGenerationSuccess) sampleState App.initialState
      (by decide) (by decide)).2 rfl).1⟩

end CodeGenerator

end CodeCopilot

/-! The history list -/

namespace CodeCopilot

namespace HistoryList

theorem requestedPages_append_scrollTo (calls : List Call) (top : Int) :
    requestedPages (calls ++ [Call.scrollTo top]) = requestedPages calls := by
  induction calls with
  | nil => simp [requestedPages]
  | cons c rest ih => cases c <;> simp [requestedPages, ih]

theorem requestedPages_append_consoleError (calls : List Call) (label : String) :
    requestedPages (calls ++ [Call.consoleError label]) = requestedPages calls := by
  induction calls with
  | nil => simp [requestedPages]
  | cons c rest ih => cases c <;> simp [requestedPages, ih]

/-- The part of `fetchHistory` after the `await` asks for no further page. -/
theorem requestedPages_fetchHistorySettle (outcome : HistoryOutcome) (r : Result) :
    requestedPages (fetchHistorySettle outcome r).calls = requestedPages r.calls := by
  unfold fetchHistorySettle
  split <;> simp [catchFinally, requestedPages_append_consoleError]

/-- The calls of `fetchHistory`: one `getHistory` for the page given, with
limit 10, then at most a `console.error`. -/
theorem requestedPages_fetchHistory (getHistory : Int → Int → HistoryOutcome)
    (page : Option Int) (s : State) :
    requestedPages (fetchHistory getHistory page s).calls = [(page.getD 1, 10)] := by
  rw [fetchHistory, requestedPages_fetchHistorySettle]
  rfl

/-- Among items with distinct ids, at most one has a given id. -/
theorem length_filter_id_le_one (expandedId : Option Nat) :
    ∀ history : List Generation, (history.map Generation.id).Nodup →
      (history.filter (fun item => expandedId == some item.id)).length ≤ 1 := by
  intro history
  induction history with
  | nil => simp
  | cons item rest ih =>
      intro hnd
      rw [List.map_cons, List.nodup_cons] at hnd
      by_cases h : expandedId = some item.id
      · have hrest : rest.filter (fun other => expandedId == some other.id) = [] := by
          rw [List.filter_eq_nil_iff]
          intro other hmem heq
          have hid : other.id = item.id := by
            have := beq_iff_eq.mp heq
            rw [h] at this
            exact (Option.some.inj this).symm
          exact hnd.1 (List.mem_map.mpr ⟨other, hmem, hid⟩)
        rw [List.filter_cons, hrest]
        split <;> simp
      · have := ih hnd.2
        simpa [List.filter_cons, h] using this

/-- C9, as stated, fails: with `totalPages = 3`, `handlePageChange(7)`
requests page 7 from `getHistory`, not page 3. -/
theorem page_request_not_clamped :
    threePageState.pagination.totalPages = 3 ∧
    requestedPages (handlePageChange emptyPageOfThree 7 threePageState).calls = [(7, 10)] ∧
    clamp 7 3 = 3 ∧
    requestedPages (handlePageChange emptyPageOfThree 7 threePageState).calls ≠
      [(clamp 7 threePageState.pagination.totalPages, 10)] := by
  decide

/-- C9, amended: for every page number `N` passed to `handlePageChange`
while `totalPages = T ≥ 1`, exactly one page is requested from
`getHistory`: `N` itself, unclamped, with limit 10; it is `N` clamped to
`[1, T]` exactly when `1 ≤ N ≤ T`. -/
theorem page_request_is_argument (getHistory : Int → Int → HistoryOutcome) (n : Int)
    (s : State) (h : 1 ≤ s.pagination.totalPages) :
    requestedPages (handlePageChange getHistory n s).calls = [(n, 10)] ∧
    (requestedPages (handlePageChange getHistory n s).calls =
        [(clamp n s.pagination.totalPages, 10)] ↔
      1 ≤ n ∧ n ≤ s.pagination.totalPages) := by
  have hreq : requestedPages (handlePageChange getHistory n s).calls = [(n, 10)] := by
    simp only [handlePageChange, requestedPages_fetchHistorySettle,
      requestedPages_append_scrollTo]
    rfl
  refine ⟨hreq, ?_⟩
  rw [hreq]
  simp only [List.cons.injEq, Prod.mk.injEq, and_true, clamp]
  omega

theorem page_request_is_argument_witness :
    requestedPages (handlePageChange emptyPageOfThree 2 threePageState).calls = [(2, 10)] ∧
    (requestedPages (handlePageChange emptyPageOfThree 2 threePageState).calls =
        [(clamp 2 threePageState.pagination.totalPages, 10)] ↔
      (1 : Int) ≤ 2 ∧ (2 : Int) ≤ threePageState.pagination.totalPages) :=
  page_request_is_argument emptyPageOfThree 2 threePageState (by decide)

/-- C10: `toggleExpand(x)` sets `expandedId` to `null` when it was `x` and
to `x` otherwise (whether it was `null` or another item); in a list of items
with distinct ids at most one expanded view is rendered afterwards; and no
other part of the state (history, pagination, loading, error) changes. -/
theorem toggleExpand_spec (s : State) (x : Nat) :
    (s.expandedId = some x → (toggleExpand x s).expandedId = none) ∧
    (s.expandedId ≠ some x → (toggleExpand x s).expandedId = some x) ∧
    ((s.history.map Generation.id).Nodup → (expandedItems (toggleExpand x s)).length ≤ 1) ∧
    (toggleExpand x s).history = s.history ∧
    (toggleExpand x s).pagination = s.pagination ∧
    (toggleExpand x s).loading = s.loading ∧
    (toggleExpand x s).error = s.error := by
  refine ⟨?_, ?_, ?_, rfl, rfl, rfl, rfl⟩
  · intro h
    simp [toggleExpand, h]
  · intro h
    simp [toggleExpand, h]
  · intro h
    exact length_filter_id_le_one _ _ h

theorem toggleExpand_spec_witness :
    (toggleExpand 7 twoItemState).expandedId = none ∧
    (toggleExpand 5 twoItemState).expandedId = some 5 ∧
    (expandedItems (toggleExpand 5 twoItemState)).length ≤ 1 :=
  ⟨(toggleExpand_spec twoItemState 7).1 rfl,
   (toggleExpand_spec twoItemState 5).2.1 (by decide),
   (toggleExpand_spec twoItemState 5).2.2.1 (by decide)⟩

end HistoryList

end CodeCopilot

/-! Loading the languages -/

namespace CodeCopilot

namespace CodeGenerator

/-- The state after `fetchLanguages` when `getLanguages` rejects. -/
theorem fetchLanguages_rejected (err : ApiError) (s : State) :
    fetchLanguages (LanguagesOutcome.rejected err) s =
      { s with languages := fallbackLanguages, language := "Python" } := rfl

/-- The state after `fetchLanguages` when `getLanguages` rejects with
`undefined` or `null`: the `catch` block reads no property of the value. -/
theorem fetchLanguages_rejectedNullish (s : State) :
    fetchLanguages LanguagesOutcome.rejectedNullish s =
      { s with languages := fallbackLanguages, language := "Python" } := rfl

/-- After `fetchLanguages`, a non-empty list has the selected language as the
name of its first entry. -/
theorem language_is_first_name (outcome : LanguagesOutcome) (s : State)
    (first : Language) (rest : List Language)
    (h : (fetchLanguages outcome s).languages = first :: rest) :
    (fetchLanguages outcome s).language = first.name := by
  cases outcome with
  | rejected err =>
      rw [fetchLanguages_rejected] at h ⊢
      simp only [fallbackLanguages, List.cons.injEq] at h
      rw [← h.1]
  | rejectedNullish =>
      rw [fetchLanguages_rejectedNullish] at h ⊢
      simp only [fallbackLanguages, List.cons.injEq] at h
      rw [← h.1]
  | resolved response =>
      cases response with
      | none =>
          simp only [fetchLanguages, languagesFallback, fallbackLanguages,
            List.cons.injEq] at h ⊢
          rw [← h.1]
      | some response =>
          obtain ⟨data⟩ := response
          cases data with
          | none => simp [fetchLanguages] at h
          | some list =>
              cases list with
              | nil => simp [fetchLanguages] at h
              | cons a t =>
                  simp only [fetchLanguages, Option.getD_some, List.cons.injEq] at h ⊢
                  rw [h.1]

/-- C11: when `getLanguages` fails (rejects with any value, `undefined` and
`null` included), `fetchLanguages` leaves `error` as it was (`null` after
mount), the language list becomes the non-empty fallback
`[Python, JavaScript, TypeScript, C++]` and the selected language becomes
'Python', the name of an entry of that list; and after `fetchLanguages`, on
either branch, a non-empty list has the selected language as the name of its
first entry. -/
theorem languages_fallback_on_failure :
    (∀ (err : ApiError) (s : State),
      (fetchLanguages (LanguagesOutcome.rejected err) s).error = s.error ∧
      (fetchLanguages (LanguagesOutcome.rejected err) s).languages = fallbackLanguages ∧
      (fetchLanguages (LanguagesOutcome.rejected err) s).languages ≠ [] ∧
      (fetchLanguages (LanguagesOutcome.rejected err) s).languages.map Language.name =
        ["Python", "JavaScript", "TypeScript", "C++"] ∧
      (fetchLanguages (LanguagesOutcome.rejected err) s).language = "Python" ∧
      "Python" ∈ (fetchLanguages (LanguagesOutcome.rejected err) s).languages.map
        Language.name) ∧
    (∀ err : ApiError,
      (fetchLanguages (LanguagesOutcome.rejected err) initialState).error = JsValue.null) ∧
    (∀ (outcome : LanguagesOutcome) (s : State) (first : Language) (rest : List Language),
      (fetchLanguages outcome s).languages = first :: rest →
        (fetchLanguages outcome s).language = first.name) ∧
    (∀ s : State,
      (fetchLanguages LanguagesOutcome.rejectedNullish s).error = s.error ∧
      (fetchLanguages LanguagesOutcome.rejectedNullish s).languages = fallbackLanguages ∧
      (fetchLanguages LanguagesOutcome.rejectedNullish s).language = "Python") := by
  refine ⟨?_, ?_, ?_, ?_⟩
  · intro err s
    rw [fetchLanguages_rejected]
    refine ⟨rfl, rfl, ?_, ?_, rfl, ?_⟩
    · simp [fallbackLanguages]
    · simp [fallbackLanguages]
    · simp [fallbackLanguages]
  · intro err
    rfl
  · intro outcome s first rest h
    exact language_is_first_name outcome s first rest h
  · intro s
    exact ⟨rfl, rfl, rfl⟩

theorem languages_fallback_on_failure_witness :
    (fetchLanguages
        (LanguagesOutcome.resolved (some ⟨some [⟨3, "Go", ".go"⟩, ⟨9, "Rust", ".rs"⟩]⟩))
        initialState).language = "Go" ∧
    (fetchLanguages (LanguagesOutcome.rejected typeError) initialState).language = "Python" :=
  ⟨languages_fallback_on_failure.2.2.1
      (LanguagesOutcome.resolved (some ⟨some [⟨3, "Go", ".go"⟩, ⟨9, "Rust", ".rs"⟩]⟩))
      initialState ⟨3, "Go", ".go"⟩ [⟨9, "Rust", ".rs"⟩] rfl,
   (languages_fallback_on_failure.1 typeError initialState).2.2.2.2.1⟩

end CodeGenerator

end CodeCopilot

/-! Clicks on the page controls -/

namespace CodeCopilot

namespace Pagination

theorem mem_navButton_onClick (target t : Int) (enabled : Bool) :
    t ∈ (NavButton.onClick { target := target, disabled := !enabled }).toList ↔
      (enabled = true ∧ t = target) := by
  cases enabled <;> simp [NavButton.onClick]

theorem mem_leading_onClick (currentPage totalPages t : Int) :
    t ∈ (leadingControls currentPage totalPages).filterMap Control.onClick ↔
      (startPage currentPage totalPages > 1 ∧ t = 1) := by
  unfold leadingControls
  by_cases c1 : startPage currentPage totalPages > 1
  · rw [if_pos c1]
    by_cases c2 : startPage currentPage totalPages > 2
    · rw [if_pos c2]
      simp [Control.onClick, c1]
    · rw [if_neg c2]
      simp [Control.onClick, c1]
  · rw [if_neg c1]
    simp [c1]

theorem mem_trailing_onClick (currentPage totalPages t : Int) :
    t ∈ (trailingControls currentPage totalPages).filterMap Control.onClick ↔
      (endPage currentPage totalPages < totalPages ∧ t = totalPages) := by
  unfold trailingControls
  by_cases c1 : endPage currentPage totalPages < totalPages
  · rw [if_pos c1]
    by_cases c2 : endPage currentPage totalPages < totalPages - 1
    · rw [if_pos c2]
      simp [Control.onClick, c1]
    · rw [if_neg c2]
      simp [Control.onClick, c1]
  · rw [if_neg c1]
    simp [c1]

theorem mem_numbers_onClick (currentPage : Int) (window : List Int) (t : Int) :
    t ∈ (window.map (fun page => Control.pageButton page (page == currentPage))).filterMap
        Control.onClick ↔ t ∈ window := by
  induction window with
  | nil => simp
  | cons a rest ih =>
      rw [List.map_cons, List.filterMap_cons]
      simp only [Control.onClick, List.mem_cons, ih]

/-- The pages that a click on the rendered component can pass on: the
neighbours of the current page when their button is enabled, page 1 and the
last page when their jump button is rendered, and the window. -/
theorem mem_clickTargets_render (p : Props) (t : Int) :
    t ∈ clickTargets (render p) ↔
      (p.hasPreviousPage = true ∧ t = p.currentPage - 1) ∨
      (startPage p.currentPage p.totalPages > 1 ∧ t = 1) ∨
      t ∈ pages p.currentPage p.totalPages ∨
      (endPage p.currentPage p.totalPages < p.totalPages ∧ t = p.totalPages) ∨
      (p.hasNextPage = true ∧ t = p.currentPage + 1) := by
  unfold clickTargets render
  rw [List.filterMap_append, List.filterMap_append]
  simp only [List.mem_append, mem_navButton_onClick, mem_leading_onClick,
    mem_trailing_onClick, mem_numbers_onClick]
  tauto

/-- C13: when `1 ≤ currentPage ≤ totalPages`, `hasNextPage` is
`currentPage < totalPages` and `hasPreviousPage` is `currentPage > 1`, every
page that an enabled or rendered control can pass to `onPageChange`
(Previous, Next, the window buttons, jump-to-first, jump-to-last) lies in
`[1, totalPages]`; a rendered jump-to-first passes 1 and a rendered
jump-to-last passes `totalPages`, and neither of these is a page of the
window. -/
theorem click_targets_in_range (p : Props)
    (h1 : 1 ≤ p.currentPage) (h2 : p.currentPage ≤ p.totalPages)
    (hn : p.hasNextPage = decide (p.currentPage < p.totalPages))
    (hp : p.hasPreviousPage = decide (p.currentPage > 1)) :
    (∀ t ∈ clickTargets (render p), 1 ≤ t ∧ t ≤ p.totalPages) ∧
    (∀ label t, Control.button label t ∈ (render p).leading →
      t = 1 ∧ t ∉ pages p.currentPage p.totalPages) ∧
    (∀ label t, Control.button label t ∈ (render p).trailing →
      t = p.totalPages ∧ t ∉ pages p.currentPage p.totalPages) := by
  have hs : 1 ≤ startPage p.currentPage p.totalPages := by
    rw [startPage_eq]; split <;> omega
  have he : endPage p.currentPage p.totalPages ≤ p.totalPages := by
    rw [endPage_eq]; omega
  refine ⟨?_, ?_, ?_⟩
  · intro t ht
    rw [mem_clickTargets_render] at ht
    simp only [hn, hp, decide_eq_true_eq, mem_pages] at ht
    rcases ht with ht | ht | ht | ht | ht <;> omega
  · intro label t hmem
    simp only [render, leadingControls] at hmem
    by_cases c1 : startPage p.currentPage p.totalPages > 1
    · rw [if_pos c1] at hmem
      have ht : t = 1 := by
        by_cases c2 : startPage p.currentPage p.totalPages > 2
        · rw [if_pos c2] at hmem
          simp at hmem
          exact hmem.2
        · rw [if_neg c2] at hmem
          simp at hmem
          exact hmem.2
      refine ⟨ht, ?_⟩
      rw [mem_pages]
      omega
    · rw [if_neg c1] at hmem
      simp at hmem
  · intro label t hmem
    simp only [render, trailingControls] at hmem
    by_cases c1 : endPage p.currentPage p.totalPages < p.totalPages
    · rw [if_pos c1] at hmem
      have ht : t = p.totalPages := by
        by_cases c2 : endPage p.currentPage p.totalPages < p.totalPages - 1
        · rw [if_pos c2] at hmem
          simp at hmem
          exact hmem.2
        · rw [if_neg c2] at hmem
          simp at hmem
          exact hmem.2
      refine ⟨ht, ?_⟩
      rw [mem_pages]
      omega
    · rw [if_neg c1] at hmem
      simp at hmem

theorem click_targets_in_range_witness :
    clickTargets (render ⟨4, 20, true, true⟩) = [3, 1, 2, 3, 4, 5, 6, 20, 5] ∧
    (∀ t ∈ clickTargets (render ⟨4, 20, true, true⟩), 1 ≤ t ∧ t ≤ 20) ∧
    (∀ label t, Control.button label t ∈ (render ⟨4, 20, true, true⟩).leading →
      t = 1 ∧ t ∉ pages 4 20) ∧
    (∀ label t, Control.button label t ∈ (render ⟨4, 20, true, true⟩).trailing →
      t = 20 ∧ t ∉ pages 4 20) :=
  ⟨by decide,
   click_targets_in_range ⟨4, 20, true, true⟩ (by decide) (by decide) (by decide) (by decide)⟩

end Pagination

end CodeCopilot

/-! The error banner after a rejection -/

namespace CodeCopilot

namespace CodeGenerator

/-- On the path of line 70 (no `errors` list), a rejection whose `error` is a
string or is missing gives a non-empty string, so the banner is rendered. -/
theorem catchMessage_nonempty_of_no_list (err : ApiError) (h : err.errors.isArray = false)
    (hshape : err.error = JsValue.undefined ∨ ∃ message, err.error = JsValue.string message) :
    ∃ message, catchMessage err = JsValue.string message ∧ message ≠ "" := by
  rcases hshape with hu | ⟨message, hm⟩
  · exact ⟨genericMessage, by simp [catchMessage, h, hu, JsValue.or, JsValue.truthy],
      by decide⟩
  · by_cases he : message = ""
    · exact ⟨genericMessage, by simp [catchMessage, h, hm, he, JsValue.or, JsValue.truthy],
        by decide⟩
    · exact ⟨message, by simp [catchMessage, h, hm, he, JsValue.or, JsValue.truthy], he⟩

/-- C12 does not hold on the code: for the rejection `{errors: []}` (list
shape, no entries) `handleSubmit` calls `generateCode`, then sets the error
to the empty string, so the error banner is not rendered and no code is
shown either; the sibling path of line 70 does fall back to the generic
message for the rejection `{error: ''}`, and there the banner is rendered. -/
theorem empty_errors_list_hides_failure :
    Call.generateCode "reverse a list" "Python" ∈
      (handleSubmit
        (fun _ _ => GenerateOutcome.rejected (ApiError.mk JsValue.undefined (JsValue.array [])))
        (some App.handleGenerationSuccess) sampleState App.initialState).calls ∧
    (handleSubmit
        (fun _ _ => GenerateOutcome.rejected (ApiError.mk JsValue.undefined (JsValue.array [])))
        (some App.handleGenerationSuccess) sampleState App.initialState).state.error =
      JsValue.string "" ∧
    errorBanner (handleSubmit
        (fun _ _ => GenerateOutcome.rejected (ApiError.mk JsValue.undefined (JsValue.array [])))
        (some App.handleGenerationSuccess) sampleState App.initialState).state = false ∧
    (handleSubmit
        (fun _ _ => GenerateOutcome.rejected (ApiError.mk JsValue.undefined (JsValue.array [])))
        (some App.handleGenerationSuccess) sampleState App.initialState).state.generatedCode =
      none ∧
    errorBanner (handleSubmit
        (fun _ _ => GenerateOutcome.rejected (ApiError.mk (JsValue.string "") JsValue.undefined))
        (some App.handleGenerationSuccess) sampleState App.initialState).state = true := by
  decide

end CodeGenerator

end CodeCopilot
